import Mathlib

/-!
Verification of the invoice-state machine and payment reconciliation logic of
the faceless-payments application, embedded shallowly from
`src/contexts/InvoiceContext.tsx`, `src/components/PaymentForm.tsx`,
`src/components/CreateInvoiceForm.tsx`, `src/components/InvoiceCard.tsx`
and `src/lib/solana.ts` (payment verification helper).

Modelling conventions:
 - JS `number` amounts are embedded as `ℚ`.
 - Optional string fields (`payerAddress`, `transactionSignature`) are plain
   `String`s where `""` stands for `undefined`/empty — this matches JS
   truthiness (`"" || x` and `undefined || x` both evaluate to `x`).
 - Timestamps (`Date` values) are `Nat` milliseconds; optional timestamps are
   `Option Nat` (a JS `Date` object is always truthy).
 - Store state is the `invoices` array, embedded as `List Invoice`.
 - `setInvoices` updaters become pure functions `List Invoice → List Invoice`.
-/

namespace Faceless

/-- `InvoiceToken` from `InvoiceContext.tsx`: `'SOL' | 'USD1'`. -/
inductive InvoiceToken where
  | SOL
  | USD1
deriving DecidableEq, Repr

/-- Invoice status from `InvoiceContext.tsx`: `'pending' | 'paid' | 'expired'`. -/
inductive InvoiceStatus where
  | pending
  | paid
  | expired
deriving DecidableEq, Repr

/-- `paymentMethod` flag from `InvoiceContext.tsx`: `'normal' | 'shadowwire'`. -/
inductive PaymentMethod where
  | normal
  | shadowwire
deriving DecidableEq, Repr

/-- The `Invoice` interface (`InvoiceContext.tsx` lines 7–22). -/
structure Invoice where
  id : String
  amount : ℚ
  token : InvoiceToken
  description : String
  recipientAddress : String
  createdAt : Nat
  status : InvoiceStatus
  payerAddress : String := ""
  paidAt : Option Nat := none
  expiresAt : Option Nat := none
  transactionSignature : String := ""
  isAnonymous : Bool := false
  paymentMethod : Option PaymentMethod := none
deriving DecidableEq, Repr

/-- JS `a || b` on strings: the empty string is the only falsy string value
    produced by the invoice fields (absent fields are modelled as `""`). -/
def orElseStr (a b : String) : String :=
  if a = "" then b else a

/-- JS `a || b` on optional timestamps (`undefined` is falsy, a `Date` is truthy). -/
def orElseTime (a b : Option Nat) : Option Nat :=
  match a with
  | some x => some x
  | none => b

/-- The field-level merge of `upsertInvoice` (`InvoiceContext.tsx` lines 135–149),
    including the paid/pending guard at lines 137–140 (which leaves the stored
    record untouched). `{...existing, ...normalizedInvoice}` overlays every
    field from the candidate, then `status`, `transactionSignature`,
    `payerAddress` and `paidAt` are recomputed as written in the source.
    Normalization (lines 121–125) is the identity on a well-typed invoice:
    `amount` is already a number and `token` is always present. -/
def mergeInvoice (existing candidate : Invoice) : Invoice :=
  if existing.status = InvoiceStatus.paid ∧ candidate.status = InvoiceStatus.pending then
    existing
  else
    { candidate with
      status := if existing.status = InvoiceStatus.paid then InvoiceStatus.paid else candidate.status
      transactionSignature := orElseStr existing.transactionSignature candidate.transactionSignature
      payerAddress := orElseStr existing.payerAddress candidate.payerAddress
      paidAt := orElseTime existing.paidAt candidate.paidAt }

/-- Replace the first invoice whose `id` matches the candidate's by the merged
    record; equivalent to `findIndex` followed by an index assignment
    (`InvoiceContext.tsx` lines 128, 151–153). -/
def upsertGo (candidate : Invoice) : List Invoice → List Invoice
  | [] => []
  | inv :: rest =>
      if inv.id = candidate.id then mergeInvoice inv candidate :: rest
      else inv :: upsertGo candidate rest

/-- The `upsertInvoice` state updater (`InvoiceContext.tsx` lines 119–155):
    prepend the candidate when no invoice with its id exists (`findIndex === -1`),
    otherwise merge into the first invoice with a matching id. -/
def upsertInvoice (candidate : Invoice) (prev : List Invoice) : List Invoice :=
  if prev.any (fun inv => inv.id = candidate.id) then upsertGo candidate prev
  else candidate :: prev

/-- The per-record update of `updateInvoiceStatus`
    (`InvoiceContext.tsx` lines 104–110): `status` is set unconditionally,
    `payerAddress` and `transactionSignature` take the argument when truthy
    (else keep the existing value), and `paidAt` is refreshed to `now`
    exactly when the new status is `paid`. -/
def updateOne (status : InvoiceStatus) (payerAddress transactionSignature : String)
    (now : Nat) (existing : Invoice) : Invoice :=
  { existing with
    status := status
    payerAddress := orElseStr payerAddress existing.payerAddress
    paidAt := if status = InvoiceStatus.paid then some now else existing.paidAt
    transactionSignature := orElseStr transactionSignature existing.transactionSignature }

/-- Apply `updateOne` to the first invoice whose `id` matches (index found by
    `findIndex`, assignment at `InvoiceContext.tsx` line 104). -/
def updateGo (id : String) (status : InvoiceStatus)
    (payerAddress transactionSignature : String) (now : Nat) :
    List Invoice → List Invoice
  | [] => []
  | inv :: rest =>
      if inv.id = id then updateOne status payerAddress transactionSignature now inv :: rest
      else inv :: updateGo id status payerAddress transactionSignature now rest

/-- The `updateInvoiceStatus` state updater (`InvoiceContext.tsx` lines 88–116):
    when no invoice has the given id (`findIndex === -1`, line 94) the previous
    array is returned unchanged; otherwise the matching record is updated. -/
def updateInvoiceStatus (id : String) (status : InvoiceStatus)
    (payerAddress transactionSignature : String) (now : Nat)
    (prev : List Invoice) : List Invoice :=
  if prev.any (fun inv => inv.id = id) then
    updateGo id status payerAddress transactionSignature now prev
  else prev

/-- Status of the first invoice with the given id, if any. -/
def statusOf (id : String) (store : List Invoice) : Option InvoiceStatus :=
  (store.find? (fun inv => inv.id = id)).map Invoice.status

/-- Transaction signature of the first invoice with the given id, if any. -/
def sigOf (id : String) (store : List Invoice) : Option String :=
  (store.find? (fun inv => inv.id = id)).map Invoice.transactionSignature

/-- Outcome of the synchronous precondition gate of `handlePayment`
    (`PaymentForm.tsx` lines 889–927, ShadowWire-enabled version):
    each early `return` branch, then `proceed` when execution reaches the
    `try` block (line 932) that performs the ledger/gateway work. -/
inductive PayGate where
  | notConnected
  | alreadySubmitted
  | alreadyPaid
  | selfPay
  | proceed
deriving DecidableEq, Repr

/-- The precondition checks of `handlePayment`, in source order:
    wallet connectivity (line 890), the duplicate-submission guard on a
    pending invoice with any truthy `transactionSignature` (line 896),
    the already-paid check (line 912), and the own-payer check (line 922).
    No check inspects `invoice.amount`. -/
def handlePaymentGate (connected : Bool) (invoice : Invoice) (payer : String) : PayGate :=
  if ¬connected then PayGate.notConnected
  else if invoice.status = InvoiceStatus.pending ∧ invoice.transactionSignature ≠ "" then
    PayGate.alreadySubmitted
  else if invoice.status = InvoiceStatus.paid then PayGate.alreadyPaid
  else if invoice.payerAddress = payer then PayGate.selfPay
  else PayGate.proceed

/-- Per-token minimum amounts from `TOKEN_CONFIG`
    (`CreateInvoiceForm.tsx` lines 14–17): 0.1 SOL, 1 USD1. -/
def tokenMin : InvoiceToken → ℚ
  | InvoiceToken.SOL => 1 / 10
  | InvoiceToken.USD1 => 1

/-- Outcome of the `handleSubmit` validation in `CreateInvoiceForm.tsx`
    (lines 33–51). -/
inductive CreateGate where
  | noWallet
  | invalidAmount
  | belowMin
  | accepted
deriving DecidableEq, Repr

/-- The invoice-creation validation (`CreateInvoiceForm.tsx` lines 36–51):
    wallet required, `amountNum` must be positive (an empty amount string
    parses to 0 and is caught here too), and `amountNum < tokenConfig.min`
    is rejected before `createInvoice` is called. -/
def createInvoiceGate (hasWallet : Bool) (amountNum : ℚ) (token : InvoiceToken) : CreateGate :=
  if ¬hasWallet then CreateGate.noWallet
  else if amountNum ≤ 0 then CreateGate.invalidAmount
  else if amountNum < tokenMin token then CreateGate.belowMin
  else CreateGate.accepted

/-- Modelled from the spec: a well-formed public-ledger signature has the
    base58 character set and an encoded length in the fixed expected range
    (87–88 characters). The repository's source contains no such validation
    routine; this definition renders the spec's notion of a "well-formed"
    signature so that claims contrasting well-formed and malformed
    references can be stated. -/
def isValidLedgerSignature (s : String) : Bool :=
  (decide (87 ≤ s.length) && decide (s.length ≤ 88)) &&
    s.toList.all (fun c =>
      "123456789ABCDEFGHJKLMNPQRSTUVWXYZabcdefghijkmnopqrstuvwxyz".toList.contains c)

/-- Outcome of the gateway (ShadowWire) settlement tail of `handlePayment`
    (`PaymentForm.tsx` lines 998–1057). -/
inductive GatewayOutcome where
  | errorNoSignature
  | submittedUnconfirmed
  | markedPaid
deriving DecidableEq, Repr

/-- The settlement tail after `client.transfer` resolves
    (`PaymentForm.tsx` lines 998–1057): an empty/missing `tx_signature`
    throws (lines 998–1001); otherwise the pending state is stored and the
    signature is confirmed against the ledger (`confirmSignature`, line 1036);
    without confirmation the flow returns with the invoice still pending
    (lines 1037–1047); only a confirmed signature marks the invoice paid
    (lines 1049–1057). The shape of the signature is never inspected. -/
def gatewaySettlementOutcome (txSignature : String) (confirmedOnLedger : Bool) :
    GatewayOutcome :=
  if txSignature = "" then GatewayOutcome.errorNoSignature
  else if ¬confirmedOnLedger then GatewayOutcome.submittedUnconfirmed
  else GatewayOutcome.markedPaid

/-- A payment detected by one `checkForPayment` poll
    (`InvoiceCard.tsx` lines 62–152): the matching entry's signature, the
    derived sender address (possibly undetermined, modelled as `""`), and
    the block time in milliseconds. -/
structure DetectedPayment where
  signature : String
  payer : String
  blockTimeMs : Nat
deriving DecidableEq, Repr

/-- The invoice written by `checkForPayment` on a match
    (`InvoiceCard.tsx` lines 120–127). -/
def observerPaidInvoice (invoice : Invoice) (d : DetectedPayment) : Invoice :=
  { invoice with
    status := InvoiceStatus.paid
    payerAddress := d.payer
    transactionSignature := d.signature
    paidAt := some d.blockTimeMs
    paymentMethod := some PaymentMethod.normal }

/-- State of the polling `useEffect` of `InvoiceCard.tsx` (lines 154–189):
    whether the interval is still installed, how many polls have run, and
    the invoice store. -/
structure ObserverState where
  polling : Bool
  attempts : Nat
  store : List Invoice
deriving DecidableEq, Repr

/-- One `poll` tick (`InvoiceCard.tsx` lines 166–175): when a payment is
    found the store is updated through `upsertInvoice` and the interval is
    cleared; otherwise polling continues. The loop carries no attempt
    counter and no cap — only a found payment (or an external status
    change/unmount, outside this step) clears the interval. -/
def observerStep (invoice : Invoice) (check : Option DetectedPayment)
    (s : ObserverState) : ObserverState :=
  if s.polling then
    match check with
    | some d =>
        { polling := false
          attempts := s.attempts + 1
          store := upsertInvoice (observerPaidInvoice invoice d) s.store }
    | none => { s with attempts := s.attempts + 1 }
  else s

/-- The observer after `n` poll ticks spaced `POLL_INTERVAL` (5000 ms) apart,
    where `check k` is what `checkForPayment` finds on tick `k`. -/
def observerRun (invoice : Invoice) (check : Nat → Option DetectedPayment)
    (s0 : List Invoice) : Nat → ObserverState
  | 0 => { polling := true, attempts := 0, store := s0 }
  | n + 1 => observerStep invoice (check n) (observerRun invoice check s0 n)

/-- The amount-match predicate of `verifyPaymentReceived`
    (`src/lib/solana.ts`, devnet-era version, lines 52–54 and 95/123):
    a received balance delta matches when it lies within the ±2% tolerance
    band around the expected amount. -/
def paymentMatches (expectedAmount received : ℚ) : Bool :=
  let tolerance : ℚ := 2 / 100
  let minAmount := expectedAmount * (1 - tolerance)
  let maxAmount := expectedAmount * (1 + tolerance)
  decide (minAmount ≤ received) && decide (received ≤ maxAmount)

/-! ### Concrete records used by counterexamples and witnesses -/

/-- A stored invoice already marked paid. -/
def paidStored : Invoice :=
  { id := "inv-paid", amount := 2, token := InvoiceToken.SOL,
    description := "work", recipientAddress := "RecipA", createdAt := 100,
    status := InvoiceStatus.paid, payerAddress := "PayerA",
    paidAt := some 200, transactionSignature := "sigA" }

/-- A paid invoice that never recorded a payer address. -/
def paidNoPayer : Invoice :=
  { id := "inv-a", amount := 2, token := InvoiceToken.SOL,
    description := "work", recipientAddress := "RecipA", createdAt := 100,
    status := InvoiceStatus.paid, payerAddress := "",
    paidAt := some 200, transactionSignature := "sigA" }

/-- A pending same-id candidate that carries a payer address. -/
def pendingWithPayer : Invoice :=
  { id := "inv-a", amount := 2, token := InvoiceToken.SOL,
    description := "work", recipientAddress := "RecipA", createdAt := 100,
    status := InvoiceStatus.pending, payerAddress := "PayerZ" }

/-- A stored pending invoice with amount 1. -/
def pendingAmountOne : Invoice :=
  { id := "inv-c", amount := 1, token := InvoiceToken.SOL,
    description := "one", recipientAddress := "RecipC", createdAt := 100,
    status := InvoiceStatus.pending }

/-- A same-id pending candidate carrying a different amount, recipient and token. -/
def pendingAmountTwo : Invoice :=
  { id := "inv-c", amount := 2, token := InvoiceToken.USD1,
    description := "two", recipientAddress := "RecipD", createdAt := 100,
    status := InvoiceStatus.pending }

/-- A pending invoice whose amount (0.05 SOL) is below the configured
    0.1 SOL minimum. -/
def belowMinInvoice : Invoice :=
  { id := "inv-low", amount := 1 / 20, token := InvoiceToken.SOL,
    description := "tiny", recipientAddress := "RecipE", createdAt := 100,
    status := InvoiceStatus.pending }

/-- A pending invoice carrying a malformed attached signature (8 characters,
    far outside the 87–88 length range of a ledger signature). -/
def malformedSigInvoice : Invoice :=
  { id := "inv-m", amount := 1, token := InvoiceToken.SOL,
    description := "m", recipientAddress := "RecipF", createdAt := 100,
    status := InvoiceStatus.pending, transactionSignature := "deadbeef" }

/-- A pending candidate carrying the same id as `paidStored`. -/
def pendingDuplicate : Invoice :=
  { id := "inv-paid", amount := 2, token := InvoiceToken.SOL,
    description := "dup", recipientAddress := "RecipA", createdAt := 150,
    status := InvoiceStatus.pending }

/-! ### Algebra of the merge helpers -/

theorem orElseStr_self (s : String) : orElseStr s s = s := by
  unfold orElseStr; split <;> rfl

theorem orElseTime_self (t : Option Nat) : orElseTime t t = t := by
  cases t <;> rfl

theorem orElseStr_idem (a b : String) : orElseStr (orElseStr a b) b = orElseStr a b := by
  unfold orElseStr
  by_cases h : a = "" <;> simp [h]

theorem orElseTime_idem (a b : Option Nat) : orElseTime (orElseTime a b) b = orElseTime a b := by
  cases a <;> cases b <;> rfl

/-- When the paid/pending guard fires, the merge keeps the stored record. -/
theorem mergeInvoice_guard (e a : Invoice)
    (h : e.status = InvoiceStatus.paid ∧ a.status = InvoiceStatus.pending) :
    mergeInvoice e a = e := by
  rw [mergeInvoice, if_pos h]

theorem mergeInvoice_self (a : Invoice) : mergeInvoice a a = a := by
  rw [mergeInvoice]
  split
  · rfl
  · cases a
    simp only [Invoice.mk.injEq, orElseStr_self, orElseTime_self, and_true, true_and]
    split <;> simp_all

theorem mergeInvoice_id_of_eq (e a : Invoice) (h : e.id = a.id) :
    (mergeInvoice e a).id = a.id := by
  rw [mergeInvoice]
  split
  · exact h
  · rfl

theorem mergeInvoice_idem (e a : Invoice) :
    mergeInvoice (mergeInvoice e a) a = mergeInvoice e a := by
  by_cases h1 : e.status = InvoiceStatus.paid ∧ a.status = InvoiceStatus.pending
  · rw [mergeInvoice_guard e a h1]
    exact mergeInvoice_guard e a h1
  · have hm : mergeInvoice e a =
      { a with
        status := if e.status = InvoiceStatus.paid then InvoiceStatus.paid else a.status
        transactionSignature := orElseStr e.transactionSignature a.transactionSignature
        payerAddress := orElseStr e.payerAddress a.payerAddress
        paidAt := orElseTime e.paidAt a.paidAt } := by
      rw [mergeInvoice, if_neg h1]
    by_cases he : e.status = InvoiceStatus.paid
    · have hap : a.status ≠ InvoiceStatus.pending := fun hp => h1 ⟨he, hp⟩
      rw [if_pos he] at hm
      rw [hm, mergeInvoice, if_neg (fun hc => hap hc.2)]
      simp [orElseStr_idem, orElseTime_idem]
    · have hg2 : ¬(a.status = InvoiceStatus.paid ∧ a.status = InvoiceStatus.pending) := by
        rintro ⟨hp, hq⟩
        rw [hp] at hq
        cases hq
      rw [if_neg he] at hm
      rw [hm, mergeInvoice, if_neg (fun hc => hg2 hc)]
      simp only [Invoice.mk.injEq, orElseStr_idem, orElseTime_idem, and_true, true_and]
      split <;> simp_all

/-- A paid stored record stays paid through the field-level merge. -/
theorem mergeInvoice_status_paid (e a : Invoice) (h : e.status = InvoiceStatus.paid) :
    (mergeInvoice e a).status = InvoiceStatus.paid := by
  rw [mergeInvoice]
  split
  · exact h
  · simp [h]

theorem statusOf_cons (i : String) (inv : Invoice) (rest : List Invoice) :
    statusOf i (inv :: rest) =
      if inv.id = i then some inv.status else statusOf i rest := by
  by_cases h : inv.id = i
  · simp [statusOf, List.find?_cons_of_pos, h]
  · simp [statusOf, List.find?_cons_of_neg, h]

/-! ### Store-level lemmas -/

theorem upsertGo_idem (a : Invoice) (l : List Invoice) :
    upsertGo a (upsertGo a l) = upsertGo a l := by
  induction l with
  | nil => rfl
  | cons inv rest ih =>
    by_cases h : inv.id = a.id
    · simp only [upsertGo, if_pos h, if_pos (mergeInvoice_id_of_eq inv a h), mergeInvoice_idem]
    · simp only [upsertGo, if_neg h, ih]

theorem upsertGo_any (a : Invoice) (l : List Invoice)
    (h : l.any (fun inv => inv.id = a.id) = true) :
    (upsertGo a l).any (fun inv => inv.id = a.id) = true := by
  induction l with
  | nil => simp at h
  | cons inv rest ih =>
    by_cases hi : inv.id = a.id
    · simp [upsertGo, if_pos hi, mergeInvoice_id_of_eq inv a hi]
    · simp only [upsertGo, if_neg hi, List.any_cons, Bool.or_eq_true, decide_eq_true_eq] at h ⊢
      rcases h with h | h
      · exact absurd h hi
      · exact Or.inr (ih h)

theorem upsertGo_preserves_paid (c : Invoice) (i : String) (s : List Invoice)
    (h : statusOf i s = some InvoiceStatus.paid) :
    statusOf i (upsertGo c s) = some InvoiceStatus.paid := by
  induction s with
  | nil => simp [statusOf] at h
  | cons inv rest ih =>
    rw [statusOf_cons] at h
    by_cases hic : inv.id = c.id
    · have hid : (mergeInvoice inv c).id = inv.id := by
        rw [mergeInvoice_id_of_eq inv c hic, hic]
      by_cases hpi : inv.id = i
      · rw [if_pos hpi] at h
        simp only [upsertGo, if_pos hic, statusOf_cons, hid, if_pos hpi]
        rw [mergeInvoice_status_paid inv c (Option.some.injEq _ _ ▸ h)]
      · rw [if_neg hpi] at h
        simp only [upsertGo, if_pos hic, statusOf_cons, hid, if_neg hpi]
        exact h
    · by_cases hpi : inv.id = i
      · rw [if_pos hpi] at h
        simp only [upsertGo, if_neg hic, statusOf_cons, if_pos hpi]
        exact h
      · rw [if_neg hpi] at h
        simp only [upsertGo, if_neg hic, statusOf_cons, if_neg hpi]
        exact ih h

theorem upsert_preserves_paid (c : Invoice) (i : String) (s : List Invoice)
    (h : statusOf i s = some InvoiceStatus.paid) :
    statusOf i (upsertInvoice c s) = some InvoiceStatus.paid := by
  by_cases hany : s.any (fun inv => inv.id = c.id) = true
  · rw [upsertInvoice, if_pos hany]
    exact upsertGo_preserves_paid c i s h
  · rw [upsertInvoice, if_neg hany, statusOf_cons]
    by_cases hci : c.id = i
    · exfalso
      obtain ⟨inv, hfind⟩ : ∃ inv, s.find? (fun inv => inv.id = i) = some inv := by
        cases hf : s.find? (fun inv => inv.id = i) with
        | none => rw [statusOf, hf] at h; simp at h
        | some inv => exact ⟨inv, rfl⟩
      have hmem := List.mem_of_find?_eq_some hfind
      have hid : inv.id = i := by simpa using List.find?_some hfind
      apply hany
      simp only [List.any_eq_true]
      exact ⟨inv, hmem, by simp [hid, hci]⟩
    · rw [if_neg hci]
      exact h

theorem updateGo_preserves_paid (uid p g : String) (now : Nat) (i : String)
    (s : List Invoice) (h : statusOf i s = some InvoiceStatus.paid) :
    statusOf i (updateGo uid InvoiceStatus.paid p g now s) = some InvoiceStatus.paid := by
  induction s with
  | nil => simp [statusOf] at h
  | cons inv rest ih =>
    rw [statusOf_cons] at h
    by_cases hu : inv.id = uid
    · have hid : (updateOne InvoiceStatus.paid p g now inv).id = inv.id := rfl
      by_cases hpi : inv.id = i
      · simp only [updateGo, if_pos hu, statusOf_cons, hid, if_pos hpi]
        rfl
      · rw [if_neg hpi] at h
        simp only [updateGo, if_pos hu, statusOf_cons, hid, if_neg hpi]
        exact h
    · by_cases hpi : inv.id = i
      · rw [if_pos hpi] at h
        simp only [updateGo, if_neg hu, statusOf_cons, if_pos hpi]
        exact h
      · rw [if_neg hpi] at h
        simp only [updateGo, if_neg hu, statusOf_cons, if_neg hpi]
        exact ih h

theorem updateStatus_preserves_paid (uid p g : String) (now : Nat) (i : String)
    (s : List Invoice) (h : statusOf i s = some InvoiceStatus.paid) :
    statusOf i (updateInvoiceStatus uid InvoiceStatus.paid p g now s) =
      some InvoiceStatus.paid := by
  rw [updateInvoiceStatus]
  split
  · exact updateGo_preserves_paid uid p g now i s h
  · exact h

/-- The observer with a never-matching check keeps polling forever: after `n`
    ticks the interval is still installed, `n` polls have run, and the store
    is untouched. -/
theorem observer_no_match (invoice : Invoice) (s0 : List Invoice) (n : Nat) :
    observerRun invoice (fun _ => none) s0 n =
      { polling := true, attempts := n, store := s0 } := by
  induction n with
  | zero => rfl
  | succ k ih => simp [observerRun, ih, observerStep]

/-! ### Claim C1 -/

/-- C1, counterexample: the claim fails as stated. A status-update call with
    status `pending` reverts a stored paid invoice to `pending`:
    `updateInvoiceStatus` applies its status argument unconditionally. -/
theorem C1_counterexample :
    statusOf "inv-paid" [paidStored] = some InvoiceStatus.paid ∧
    statusOf "inv-paid"
      (updateInvoiceStatus "inv-paid" InvoiceStatus.pending "" "" 1000 [paidStored]) =
      some InvoiceStatus.pending :=
  ⟨by decide, by decide⟩

/-- C1, amended: a stored paid invoice stays paid under every merge
    (`upsertInvoice` with any candidate, including a same-id pending one)
    and under every status-update call whose status argument is `paid` —
    the only status the application passes; `updateInvoiceStatus` itself
    applies its status argument unconditionally, so a `pending` argument
    would revert it. -/
theorem C1_paid_absorbing (c : Invoice) (i uid p g : String) (now : Nat)
    (s : List Invoice) (h : statusOf i s = some InvoiceStatus.paid) :
    statusOf i (upsertInvoice c s) = some InvoiceStatus.paid ∧
    statusOf i (updateInvoiceStatus uid InvoiceStatus.paid p g now s) =
      some InvoiceStatus.paid :=
  ⟨upsert_preserves_paid c i s h, updateStatus_preserves_paid uid p g now i s h⟩

/-- C1, witness: the amended theorem at a one-invoice store. -/
theorem C1_witness :
    statusOf "inv-paid" [paidStored] = some InvoiceStatus.paid ∧
    (statusOf "inv-paid" (upsertInvoice pendingDuplicate [paidStored]) =
        some InvoiceStatus.paid ∧
      statusOf "inv-paid"
          (updateInvoiceStatus "inv-paid" InvoiceStatus.paid "PayerB" "sigB" 5 [paidStored]) =
        some InvoiceStatus.paid) :=
  ⟨by decide,
   C1_paid_absorbing pendingDuplicate "inv-paid" "inv-paid" "PayerB" "sigB" 5 [paidStored]
     (by decide)⟩

/-! ### Claim C2 -/

/-- C2, counterexample: the claim fails as stated in two places. First, when
    the paid/pending guard fires, the merge ignores the candidate entirely:
    with an empty stored `payerAddress` and a non-empty candidate value the
    result keeps the empty value, not the candidate value as claimed.
    Second, a later status-update write replaces a non-empty stored
    signature ("sigA") with its own non-empty argument ("sigNEW"). -/
theorem C2_counterexample :
    paidNoPayer.payerAddress = "" ∧
    pendingWithPayer.payerAddress = "PayerZ" ∧
    paidNoPayer.id = pendingWithPayer.id ∧
    (mergeInvoice paidNoPayer pendingWithPayer).payerAddress = "" ∧
    sigOf "inv-paid" [paidStored] = some "sigA" ∧
    sigOf "inv-paid"
        (updateInvoiceStatus "inv-paid" InvoiceStatus.paid "" "sigNEW" 900 [paidStored]) =
      some "sigNEW" :=
  ⟨rfl, rfl, rfl, by decide, by decide, by decide⟩

/-- C2, amended: unless the paid/pending guard fires (in which case the
    merge keeps the stored record unchanged), the merge result takes, for
    `transactionSignature`, `payerAddress` and `paidAt`, the stored value
    when non-empty and the candidate value otherwise; a merge never clears
    or replaces a non-empty value of these fields. A status-update call
    never clears them either, but it may replace the signature and the
    payer (non-empty argument wins) and refreshes `paidAt` when called
    with status `paid`. -/
theorem C2_fill_once (e c : Invoice) :
    ((e.status = InvoiceStatus.paid ∧ c.status = InvoiceStatus.pending) →
        mergeInvoice e c = e) ∧
    (¬(e.status = InvoiceStatus.paid ∧ c.status = InvoiceStatus.pending) →
        (mergeInvoice e c).transactionSignature =
            orElseStr e.transactionSignature c.transactionSignature ∧
          (mergeInvoice e c).payerAddress = orElseStr e.payerAddress c.payerAddress ∧
          (mergeInvoice e c).paidAt = orElseTime e.paidAt c.paidAt) ∧
    (e.transactionSignature ≠ "" →
        (mergeInvoice e c).transactionSignature = e.transactionSignature) ∧
    (e.payerAddress ≠ "" → (mergeInvoice e c).payerAddress = e.payerAddress) ∧
    (∀ t, e.paidAt = some t → (mergeInvoice e c).paidAt = some t) ∧
    (∀ st p g now, e.transactionSignature ≠ "" →
        (updateOne st p g now e).transactionSignature ≠ "") ∧
    (∀ st p g now, e.payerAddress ≠ "" → (updateOne st p g now e).payerAddress ≠ "") ∧
    (∀ st p g now t, e.paidAt = some t → (updateOne st p g now e).paidAt ≠ none) := by
  refine ⟨fun h => mergeInvoice_guard e c h, fun h => ?_, fun h => ?_, fun h => ?_,
    fun t ht => ?_, fun st p g now h => ?_, fun st p g now h => ?_, fun st p g now t ht => ?_⟩
  · rw [mergeInvoice, if_neg h]
    exact ⟨rfl, rfl, rfl⟩
  · rw [mergeInvoice]
    split
    · rfl
    · show orElseStr e.transactionSignature c.transactionSignature = _
      rw [orElseStr, if_neg h]
  · rw [mergeInvoice]
    split
    · rfl
    · show orElseStr e.payerAddress c.payerAddress = _
      rw [orElseStr, if_neg h]
  · rw [mergeInvoice]
    split
    · exact ht
    · show orElseTime e.paidAt c.paidAt = _
      rw [ht, orElseTime]
  · show orElseStr g e.transactionSignature ≠ ""
    rw [orElseStr]
    split
    · exact h
    · next hg => exact hg
  · show orElseStr p e.payerAddress ≠ ""
    rw [orElseStr]
    split
    · exact h
    · next hp => exact hp
  · show (if st = InvoiceStatus.paid then some now else e.paidAt) ≠ none
    split
    · exact Option.some_ne_none now
    · rw [ht]
      exact Option.some_ne_none t

/-! ### Claim C3 -/

/-- C3: the merge operation is idempotent — applying `upsertInvoice` with the
    same candidate twice in succession yields exactly the store produced by
    applying it once, for every store state and candidate. -/
theorem C3_merge_idempotent (a : Invoice) (s : List Invoice) :
    upsertInvoice a (upsertInvoice a s) = upsertInvoice a s := by
  by_cases h : s.any (fun inv => inv.id = a.id) = true
  · have h1 : upsertInvoice a s = upsertGo a s := by rw [upsertInvoice, if_pos h]
    rw [h1, upsertInvoice, if_pos (upsertGo_any a s h)]
    exact upsertGo_idem a s
  · have h1 : upsertInvoice a s = a :: s := by rw [upsertInvoice, if_neg h]
    have hany : (a :: s).any (fun inv => inv.id = a.id) = true := by simp
    rw [h1, upsertInvoice, if_pos hany]
    simp [upsertGo, mergeInvoice_self]

/-! ### Claim C4 -/

/-- C4, counterexample: the claim fails as stated. Merging a same-id
    candidate that carries a different amount, recipient address and token
    overlays all three onto the stored invoice — they are not immutable
    under the merge. -/
theorem C4_counterexample :
    pendingAmountOne.id = pendingAmountTwo.id ∧
    pendingAmountOne.amount = 1 ∧ pendingAmountTwo.amount = 2 ∧
    pendingAmountOne.recipientAddress = "RecipC" ∧
    pendingAmountOne.token = InvoiceToken.SOL ∧
    (mergeInvoice pendingAmountOne pendingAmountTwo).amount = 2 ∧
    (mergeInvoice pendingAmountOne pendingAmountTwo).recipientAddress = "RecipD" ∧
    (mergeInvoice pendingAmountOne pendingAmountTwo).token = InvoiceToken.USD1 := by
  refine ⟨rfl, by norm_num [pendingAmountOne], by norm_num [pendingAmountTwo], rfl, rfl,
    ?_, ?_, ?_⟩ <;>
    simp [mergeInvoice, pendingAmountOne, pendingAmountTwo]

/-- C4, amended: for a same-id merge, only `id` is guaranteed unchanged.
    Unless the paid/pending guard fires, the merge takes `amount`,
    `recipientAddress`, `token` and `description` from the candidate (the
    store does not enforce their immutability); when the guard fires the
    whole stored record is kept. -/
theorem C4_merge_overlays (e c : Invoice) (hid : e.id = c.id) :
    (mergeInvoice e c).id = e.id ∧
    (¬(e.status = InvoiceStatus.paid ∧ c.status = InvoiceStatus.pending) →
        (mergeInvoice e c).amount = c.amount ∧
        (mergeInvoice e c).recipientAddress = c.recipientAddress ∧
        (mergeInvoice e c).token = c.token ∧
        (mergeInvoice e c).description = c.description) ∧
    ((e.status = InvoiceStatus.paid ∧ c.status = InvoiceStatus.pending) →
        mergeInvoice e c = e) := by
  refine ⟨?_, fun h => ?_, fun h => mergeInvoice_guard e c h⟩
  · rw [hid]
    exact mergeInvoice_id_of_eq e c hid
  · rw [mergeInvoice, if_neg h]
    exact ⟨rfl, rfl, rfl, rfl⟩

/-- C4, witness: the amended theorem at two concrete same-id invoices. -/
theorem C4_witness :
    pendingAmountOne.id = pendingAmountTwo.id ∧
    ((mergeInvoice pendingAmountOne pendingAmountTwo).id = pendingAmountOne.id ∧
      (¬(pendingAmountOne.status = InvoiceStatus.paid ∧
          pendingAmountTwo.status = InvoiceStatus.pending) →
          (mergeInvoice pendingAmountOne pendingAmountTwo).amount = pendingAmountTwo.amount ∧
          (mergeInvoice pendingAmountOne pendingAmountTwo).recipientAddress =
            pendingAmountTwo.recipientAddress ∧
          (mergeInvoice pendingAmountOne pendingAmountTwo).token = pendingAmountTwo.token ∧
          (mergeInvoice pendingAmountOne pendingAmountTwo).description =
            pendingAmountTwo.description) ∧
      ((pendingAmountOne.status = InvoiceStatus.paid ∧
          pendingAmountTwo.status = InvoiceStatus.pending) →
          mergeInvoice pendingAmountOne pendingAmountTwo = pendingAmountOne)) :=
  ⟨rfl, C4_merge_overlays pendingAmountOne pendingAmountTwo rfl⟩

/-! ### Claim C5 -/

/-- C5, counterexample: the claim fails as stated. The settlement entrypoint
    performs no minimum-amount check: for a pending invoice whose amount
    (0.05 SOL) is below the configured 0.1 SOL minimum, the precondition
    gate proceeds to the transfer instead of rejecting. -/
theorem C5_counterexample :
    belowMinInvoice.amount < tokenMin belowMinInvoice.token ∧
    handlePaymentGate true belowMinInvoice "PayerQ" = PayGate.proceed :=
  ⟨by norm_num [belowMinInvoice, tokenMin], by decide⟩

/-- C5, amended: the token minimum (0.1 SOL, 1 USD1) is enforced at invoice
    creation — `CreateInvoiceForm` never accepts an amount below the
    configured minimum — while the settlement entrypoint itself is
    amount-independent: its precondition gate gives the same answer
    whatever the invoice amount is. -/
theorem C5_min_at_creation (hasWallet : Bool) (amt : ℚ) (tok : InvoiceToken)
    (h : amt < tokenMin tok) :
    createInvoiceGate hasWallet amt tok ≠ CreateGate.accepted ∧
    ∀ (inv : Invoice) (conn : Bool) (payer : String) (x : ℚ),
      handlePaymentGate conn { inv with amount := x } payer =
        handlePaymentGate conn inv payer := by
  constructor
  · unfold createInvoiceGate
    split_ifs with h1 h2
    · exact fun hc => CreateGate.noConfusion hc
    · exact fun hc => CreateGate.noConfusion hc
    · exact fun hc => CreateGate.noConfusion hc
  · intro inv conn payer x
    rfl

/-- C5, witness: the amended theorem at 0.05 SOL. -/
theorem C5_witness :
    (1 : ℚ) / 20 < tokenMin InvoiceToken.SOL ∧
    (createInvoiceGate true (1 / 20) InvoiceToken.SOL ≠ CreateGate.accepted ∧
      ∀ (inv : Invoice) (conn : Bool) (payer : String) (x : ℚ),
        handlePaymentGate conn { inv with amount := x } payer =
          handlePaymentGate conn inv payer) :=
  ⟨by norm_num [tokenMin],
   C5_min_at_creation true (1 / 20) InvoiceToken.SOL (by norm_num [tokenMin])⟩

/-! ### Claim C6 -/

/-- C6, counterexample: the claim fails as stated. For a pending invoice
    whose attached signature is malformed ("deadbeef" is not a well-formed
    ledger signature), the settlement entrypoint still refuses with
    "already submitted" — the guard never inspects the signature shape, so
    no retry is allowed. -/
theorem C6_counterexample :
    isValidLedgerSignature malformedSigInvoice.transactionSignature = false ∧
    malformedSigInvoice.status = InvoiceStatus.pending ∧
    malformedSigInvoice.transactionSignature ≠ "" ∧
    handlePaymentGate true malformedSigInvoice "PayerR" = PayGate.alreadySubmitted :=
  ⟨by decide, rfl, by decide, by decide⟩

/-- C6, amended: a second settlement call on a pending invoice is refused
    whenever any non-empty transaction signature is attached, well-formed
    or not; there is no malformed-signature retry escape. -/
theorem C6_guard_ignores_shape (inv : Invoice) (payer : String)
    (h1 : inv.status = InvoiceStatus.pending) (h2 : inv.transactionSignature ≠ "") :
    handlePaymentGate true inv payer = PayGate.alreadySubmitted := by
  rw [handlePaymentGate, if_neg (by simp), if_pos ⟨h1, h2⟩]

/-- C6, witness: the amended theorem at the malformed-signature invoice. -/
theorem C6_witness :
    (malformedSigInvoice.status = InvoiceStatus.pending ∧
      malformedSigInvoice.transactionSignature ≠ "") ∧
    handlePaymentGate true malformedSigInvoice "PayerS" = PayGate.alreadySubmitted :=
  ⟨⟨rfl, by decide⟩, C6_guard_ignores_shape malformedSigInvoice "PayerS" rfl (by decide)⟩

/-! ### Claim C7 -/

/-- C7, counterexample: the claim fails as stated. For a gateway reference
    that is not a valid public-ledger signature, the executor does not
    transition to paid without confirmation: an unconfirmed non-empty
    reference leaves the flow at "submitted, unconfirmed", and a missing
    reference fails the operation outright even though the gateway
    reported success. -/
theorem C7_counterexample :
    isValidLedgerSignature "gateway-internal-ref" = false ∧
    gatewaySettlementOutcome "gateway-internal-ref" false =
      GatewayOutcome.submittedUnconfirmed ∧
    gatewaySettlementOutcome "" true = GatewayOutcome.errorNoSignature :=
  ⟨by decide, by decide, by decide⟩

/-- C7, amended: the gateway settlement tail marks an invoice paid only when
    a non-empty reference was returned and that reference was confirmed on
    the ledger; a missing reference raises an error even on gateway success.
    There is no internal-only-reference path that skips confirmation. -/
theorem C7_paid_needs_confirmation (s : String) (c : Bool)
    (h : gatewaySettlementOutcome s c = GatewayOutcome.markedPaid) :
    c = true ∧ s ≠ "" := by
  rw [gatewaySettlementOutcome] at h
  split at h
  · cases h
  · split at h
    · cases h
    · next hs hc =>
      refine ⟨?_, hs⟩
      revert hc
      cases c <;> simp

/-- C7, witness: the amended theorem at a confirmed reference. -/
theorem C7_witness :
    gatewaySettlementOutcome "gw-ok-ref" true = GatewayOutcome.markedPaid ∧
    (true = true ∧ "gw-ok-ref" ≠ "") :=
  ⟨by decide, C7_paid_needs_confirmation "gw-ok-ref" true (by decide)⟩

/-! ### Claim C8 -/

/-- C8, counterexample: the claim fails as stated. With no matching ledger
    activity ever appearing, the observer is still polling after 100
    attempts — well past the claimed ~60-attempt cap — because the polling
    loop carries no attempt counter at all. The invoice does remain
    pending. -/
theorem C8_counterexample :
    (observerRun pendingAmountOne (fun _ => none) [pendingAmountOne] 100).polling = true ∧
    (observerRun pendingAmountOne (fun _ => none) [pendingAmountOne] 100).attempts = 100 ∧
    statusOf "inv-c"
        (observerRun pendingAmountOne (fun _ => none) [pendingAmountOne] 100).store =
      some InvoiceStatus.pending := by
  rw [observer_no_match]
  exact ⟨rfl, rfl, by decide⟩

/-- C8, amended: with no matching activity the observer polls unboundedly —
    after any number of ticks the interval is still installed, exactly one
    poll has run per tick, and the store (hence the pending status) is
    untouched. Polling stops only on a found payment, an external status
    change, or unmount; there is no attempt cap. -/
theorem C8_unbounded_polling (invoice : Invoice) (s0 : List Invoice) (n : Nat) :
    (observerRun invoice (fun _ => none) s0 n).polling = true ∧
    (observerRun invoice (fun _ => none) s0 n).attempts = n ∧
    (observerRun invoice (fun _ => none) s0 n).store = s0 := by
  rw [observer_no_match]
  exact ⟨rfl, rfl, rfl⟩

/-! ### Claim C9 -/

/-- C9: for every positive invoice amount, the payment-detection match
    predicate accepts an observed delta of amount × 1.005 (inside the ±2%
    tolerance band) and rejects a delta of amount × 1.5. -/
theorem C9_tolerance_match (a : ℚ) (h : 0 < a) :
    paymentMatches a (a * (1005 / 1000)) = true ∧
    paymentMatches a (a * (3 / 2)) = false := by
  unfold paymentMatches
  simp only [Bool.and_eq_true, decide_eq_true_eq, Bool.and_eq_false_iff,
    decide_eq_false_iff_not]
  refine ⟨⟨by nlinarith, by nlinarith⟩, Or.inr ?_⟩
  intro hle
  nlinarith

/-- C9, witness: the tolerance theorem at amount 2. -/
theorem C9_witness :
    (0 : ℚ) < 2 ∧
    (paymentMatches 2 (2 * (1005 / 1000)) = true ∧
      paymentMatches 2 (2 * (3 / 2)) = false) :=
  ⟨by norm_num, C9_tolerance_match 2 (by norm_num)⟩

/-! ### Claim C10 -/

/-- C10: a status-update call for an id not present in the store leaves the
    invoice collection completely unchanged, for any status, payer address,
    signature and time arguments — nothing is inserted and nothing is
    modified. -/
theorem C10_update_missing_id (s : List Invoice) (uid : String) (st : InvoiceStatus)
    (p g : String) (now : Nat) (h : ∀ inv ∈ s, inv.id ≠ uid) :
    updateInvoiceStatus uid st p g now s = s := by
  rw [updateInvoiceStatus, if_neg]
  intro hc
  simp only [List.any_eq_true, decide_eq_true_eq] at hc
  obtain ⟨inv, hmem, hid⟩ := hc
  exact h inv hmem hid

/-- C10, witness: the missing-id theorem at a one-invoice store. -/
theorem C10_witness :
    (∀ inv ∈ [paidStored], inv.id ≠ "no-such-id") ∧
    updateInvoiceStatus "no-such-id" InvoiceStatus.paid "PayerC" "sigC" 7 [paidStored] =
      [paidStored] :=
  ⟨by decide,
   C10_update_missing_id [paidStored] "no-such-id" InvoiceStatus.paid "PayerC" "sigC" 7
     (by decide)⟩

end Faceless
